import Mathlib

/-
Verification of the media-monitor pipeline: a shallow embedding of the
scraper cascade (src/scraper.py), the classifier wrapper (src/analyzer.py)
and the report aggregation pass (src/report_generator.py), with theorems
checking the specified properties against the embedded code.

Python strings are modelled as `List Char`; `Optional[str]` as
`Option (List Char)`.  Python truthiness of an optional string
(`None` and `""` are falsy) is modelled by `pyTruthy` / `pyOr`.
External effects (HTTP fetches, the trafilatura and newspaper extraction
engines, the OpenAI call) are oracle parameters: each embedded function
takes the outcome of its external calls as an argument and is otherwise a
direct transcription of the source.
-/

namespace MediaMonitor

set_option maxRecDepth 40000

abbrev Str := List Char

/-- Truthiness of an optional Python string: `None` and `""` are falsy. -/
def pyTruthy : Option Str → Bool
  | none => false
  | some s => !s.isEmpty

/-- Python `s or d` for an optional string `s`: `d` when `s` is `None` or empty. -/
def pyOr (o : Option Str) (d : Str) : Str :=
  match o with
  | some s => if s = [] then d else s
  | none => d

/-- Python `url.strip()`. -/
def pyStrip (s : Str) : Str :=
  ((s.dropWhile Char.isWhitespace).reverse.dropWhile Char.isWhitespace).reverse

/-- models.ScrapedArticle (src/models.py). -/
structure ScrapedArticle where
  url : Str
  headline : Option Str := none
  text : Option Str := none
  source : Option Str := none
  date : Option Str := none
  is_paywalled : Bool := false
  scrape_error : Option Str := none
deriving DecidableEq

/-- PAYWALL_MARKERS (src/scraper.py). -/
def PAYWALL_MARKERS : List Str :=
  [ "paywall".toList,
    "subscribe to read".toList,
    "subscription required".toList,
    "premium content".toList,
    "register to continue".toList,
    "sign in to read".toList,
    "subscribers only".toList ]

/-- Python `any(marker in html.lower() for marker in PAYWALL_MARKERS)`. -/
def hasMarker (h : Str) : Bool :=
  PAYWALL_MARKERS.any (fun m => decide (List.IsInfix m (h.map Char.toLower)))

/-- scraper._detect_paywall (src/scraper.py): text truthy and shorter than
200 chars, and the lower-cased html contains a marker. -/
def detect_paywall (text html : Option Str) : Bool :=
  match text with
  | none => false
  | some t =>
    if t ≠ [] ∧ t.length < 200 then
      match html with
      | none => false
      | some h => if h ≠ [] then hasMarker h else false
    else false

/-- The dict produced by `trafilatura.bare_extraction` as far as the scraper
reads it (the `title`, `text`, `sitename` and `date` keys). -/
structure TrafExtraction where
  title : Option Str := none
  text : Option Str := none
  sitename : Option Str := none
  date : Option Str := none
deriving DecidableEq

/-- scraper._scrape_with_trafilatura.  `extract` is the oracle for
`trafilatura.bare_extraction` (also `none` when the library raises),
`fetchUrl` the oracle for `trafilatura.fetch_url`. -/
def scrape_with_trafilatura (extract : Str → Option TrafExtraction)
    (fetchUrl : Option Str) (url : Str) (html : Option Str) :
    Option ScrapedArticle :=
  match (match html with | none => fetchUrl | some h => some h) with
  | none => none
  | some h =>
    if h = [] then none
    else
      match extract h with
      | none => none
      | some r =>
        match r.text with
        | none => none
        | some t =>
          if t = [] then none
          else some { url := url, headline := r.title, text := some t,
                      source := r.sitename, date := r.date,
                      is_paywalled := detect_paywall (some t) (some h) }

/-- The parsed newspaper `Article` as far as the scraper reads it:
`title`, `text`, the already-formatted `publish_date`, the og `site_name`
metadata and `source_url`. -/
structure NewsExtraction where
  title : Str := []
  text : Str := []
  dateStr : Option Str := none
  ogSiteName : Option Str := none
  sourceUrl : Str := []
deriving DecidableEq

/-- scraper._scrape_with_newspaper.  `news` is the oracle for the whole
download-and-parse step (`none` when the library raises). -/
def scrape_with_newspaper (news : Option NewsExtraction) (url : Str) :
    Option ScrapedArticle :=
  match news with
  | none => none
  | some e =>
    if e.text = [] then none
    else some { url := url, headline := some e.title, text := some e.text,
                source := some (pyOr e.ogSiteName e.sourceUrl),
                date := e.dateStr, is_paywalled := false }

/-- Oracle bundle for one `scrape_article` call: the result of
`_fetch_html(url)`, the trafilatura extraction as a function of the html it
is given, the result of `trafilatura.fetch_url(url)`, and the newspaper
outcome. -/
structure ScrapeEnv where
  fetchHtml : Option Str
  extract : Str → Option TrafExtraction
  fetchUrl : Option Str
  news : Option NewsExtraction

/-- The cascade acceptance test in scrape_article:
`if article and article.text and len(article.text) > 100`. -/
def acceptLong : Option ScrapedArticle → Option ScrapedArticle
  | none => none
  | some art =>
    match art.text with
    | none => none
    | some t => if t ≠ [] ∧ 100 < t.length then some art else none

/-- The terminal paywall-failure record built by scrape_article. -/
def paywallFailRecord (u : Str) : ScrapedArticle :=
  { url := u, is_paywalled := true,
    scrape_error := some "Article appears to be behind a paywall.".toList }

/-- The terminal extraction-failure record built by scrape_article. -/
def extractFailRecord (u : Str) : ScrapedArticle :=
  { url := u,
    scrape_error := some "Failed to extract article content from this URL.".toList }

/-- The final check `html and any(m in html.lower() for m in PAYWALL_MARKERS)`. -/
def htmlHasPaywallMarker : Option Str → Bool
  | none => false
  | some h => if h ≠ [] then hasMarker h else false

inductive Strategy where
  | trafCached
  | trafOwn
  | newspaperFallback
deriving DecidableEq

/-- The body of scraper.scrape_article on the stripped url, instrumented
with the list of strategies invoked. -/
def scrapeSteps (env : ScrapeEnv) (u : Str) : ScrapedArticle × List Strategy :=
  match acceptLong (scrape_with_trafilatura env.extract env.fetchUrl u env.fetchHtml) with
  | some art => (art, [Strategy.trafCached])
  | none =>
    match acceptLong (scrape_with_trafilatura env.extract env.fetchUrl u none) with
    | some art => (art, [Strategy.trafCached, Strategy.trafOwn])
    | none =>
      match acceptLong (scrape_with_newspaper env.news u) with
      | some art => (art, [Strategy.trafCached, Strategy.trafOwn, Strategy.newspaperFallback])
      | none =>
        (if htmlHasPaywallMarker env.fetchHtml then paywallFailRecord u
         else extractFailRecord u,
         [Strategy.trafCached, Strategy.trafOwn, Strategy.newspaperFallback])

/-- scraper.scrape_article with invocation trace. -/
def scrapeArticleTrace (env : ScrapeEnv) (url : Str) : ScrapedArticle × List Strategy :=
  scrapeSteps env (pyStrip url)

/-- scraper.scrape_article. -/
def scrape_article (env : ScrapeEnv) (url : Str) : ScrapedArticle :=
  (scrapeArticleTrace env url).1

/-- scraper.scrape_articles: one oracle bundle per url; blank urls skipped. -/
def scrape_articles (envOf : Str → ScrapeEnv) (urls : List Str) : List ScrapedArticle :=
  (urls.filter (fun u => !(pyStrip u).isEmpty)).map (fun u => scrape_article (envOf u) u)

/-- models.ArticleAnalysis (src/models.py). -/
structure ArticleAnalysis where
  category : Str
  sentiment : Str
  summary : Str
  headline : Str
  source : Str
  date : Str
  geographic_location : Option Str := none
  competitor_name : Option Str := none
deriving DecidableEq

/-- models.AnalyzedArticle (src/models.py). -/
structure AnalyzedArticle where
  url : Str
  scraped : ScrapedArticle
  analysis : Option ArticleAnalysis := none
  analysis_error : Option Str := none
deriving DecidableEq

/-- models.ClientConfig (src/models.py). -/
structure ClientConfig where
  client_name : Str
  keywords : List Str
  competitors : List Str
  markets : List Str
  industry_keywords : List Str
deriving DecidableEq

/-- Outcome of the `client.beta.chat.completions.parse` call in
analyzer.analyze_article: either the call raises, or it succeeds and
`completion.choices[0].message.parsed` is an optional `ArticleAnalysis`
(the SDK leaves `parsed` as `None` on a model refusal, without raising). -/
inductive SvcOutcome where
  | raised (msg : Str)
  | success (parsed : Option ArticleAnalysis)
deriving DecidableEq

/-- analyzer.analyze_article, paired with the number of classification-service
calls it makes (0 or 1). -/
def analyze_article (svc : SvcOutcome) (article : ScrapedArticle) :
    AnalyzedArticle × Nat :=
  if pyTruthy article.scrape_error || !pyTruthy article.text then
    ({ url := article.url, scraped := article,
       analysis_error := some (pyOr article.scrape_error "No article text available.".toList) },
     0)
  else
    match svc with
    | SvcOutcome.raised msg =>
      ({ url := article.url, scraped := article, analysis_error := some msg }, 1)
    | SvcOutcome.success parsed =>
      ({ url := article.url, scraped := article, analysis := parsed }, 1)

/-- The four accumulators of the classification pass at the top of
report_generator.generate_report.  `competitor_articles` and
`industry_articles` model the `defaultdict(list)`s as insertion-ordered
association lists. -/
structure AggState where
  client_articles : List AnalyzedArticle := []
  competitor_articles : List (Str × List AnalyzedArticle) := []
  industry_articles : List (Str × List AnalyzedArticle) := []
  failed_articles : List AnalyzedArticle := []
deriving DecidableEq

/-- `defaultdict(list)` append `d[k].append(v)`: extend the entry for `k`,
creating it at the end (insertion order) when absent. -/
def updateBucket (buckets : List (Str × List AnalyzedArticle)) (k : Str)
    (v : AnalyzedArticle) : List (Str × List AnalyzedArticle) :=
  match buckets with
  | [] => [(k, [v])]
  | (k2, vs) :: rest =>
    if k2 = k then (k2, vs ++ [v]) :: rest else (k2, vs) :: updateBucket rest k v

/-- `dict.get(k, [])` on an insertion-ordered association list. -/
def lookupBucket (buckets : List (Str × List AnalyzedArticle)) (k : Str) :
    List AnalyzedArticle :=
  match buckets with
  | [] => []
  | (k2, vs) :: rest => if k2 = k then vs else lookupBucket rest k

/-- One iteration of the classification loop in generate_report
(src/report_generator.py lines 109-122). -/
def classifyStep (st : AggState) (art : AnalyzedArticle) : AggState :=
  match art.analysis with
  | none => { st with failed_articles := st.failed_articles ++ [art] }
  | some an =>
    if pyTruthy art.analysis_error then
      { st with failed_articles := st.failed_articles ++ [art] }
    else if an.category = "client".toList then
      { st with client_articles := st.client_articles ++ [art] }
    else if an.category = "competitor".toList then
      { st with competitor_articles :=
          updateBucket st.competitor_articles (pyOr an.competitor_name "Other".toList) art }
    else
      { st with industry_articles :=
          updateBucket st.industry_articles (pyOr an.geographic_location "Global".toList) art }

/-- The whole classification pass of generate_report. -/
def classifyArticles (articles : List AnalyzedArticle) : AggState :=
  articles.foldl classifyStep {}

/-- Section 2 of the report as a list of (heading, articles) pairs in
emission order: every configured competitor in configuration order (with
`competitor_articles.get(name, [])`), then the buckets whose key is not a
configured competitor, in bucket (first-seen) order
(src/report_generator.py lines 148-163). -/
def competitorSections (config : ClientConfig)
    (buckets : List (Str × List AnalyzedArticle)) :
    List (Str × List AnalyzedArticle) :=
  (config.competitors.map (fun n => (n, lookupBucket buckets n))) ++
    buckets.filter (fun kv => decide (kv.1 ∉ config.competitors))

/- ### Helper lemmas -/

lemma marker_ne_nil : ∀ m ∈ PAYWALL_MARKERS, m ≠ [] := by decide

lemma hasMarker_iff (h : Str) :
    hasMarker h = true ↔ ∃ m ∈ PAYWALL_MARKERS, List.IsInfix m (h.map Char.toLower) := by
  simp [hasMarker, List.any_eq_true]

lemma hasMarker_ne_nil (h : Str) (hm : hasMarker h = true) : h ≠ [] := by
  intro hnil
  subst hnil
  exact absurd hm (by decide)

/-- Claim C6: the paywall heuristic returns true exactly when body text is
present (non-empty) and shorter than 200 characters and the lower-cased raw
HTML contains one of the fixed marker substrings; 50-char body text with HTML
containing "subscribe to read" yields true, 500-char body text with the same
HTML yields false. -/
theorem claim_c6_paywall_heuristic :
    (∀ text html, detect_paywall text html = true ↔
      ((∃ t, text = some t ∧ t ≠ [] ∧ t.length < 200) ∧
       (∃ h, html = some h ∧
         ∃ m ∈ PAYWALL_MARKERS, List.IsInfix m (h.map Char.toLower)))) ∧
    detect_paywall (some (List.replicate 50 'a'))
      (some "please subscribe to read more".toList) = true ∧
    detect_paywall (some (List.replicate 500 'a'))
      (some "please subscribe to read more".toList) = false := by
  refine ⟨?_, by decide, by decide⟩
  intro text html
  constructor
  · intro hd
    cases text with
    | none => exact absurd hd (by simp [detect_paywall])
    | some t =>
      cases html with
      | none => exact absurd hd (by simp [detect_paywall])
      | some h =>
        simp only [detect_paywall] at hd
        split at hd
        · rename_i hcond
          split at hd
          · exact ⟨⟨t, rfl, hcond.1, hcond.2⟩, h, rfl, (hasMarker_iff h).1 hd⟩
          · exact absurd hd (by simp)
        · exact absurd hd (by simp)
  · rintro ⟨⟨t, rfl, hne, hlen⟩, h, rfl, m, hmem, hinf⟩
    have hhm : hasMarker h = true := (hasMarker_iff h).2 ⟨m, hmem, hinf⟩
    have hne2 : h ≠ [] := hasMarker_ne_nil h hhm
    simp [detect_paywall, hne, hlen, hne2, hhm]

lemma acceptLong_eq_some {a : Option ScrapedArticle} {art : ScrapedArticle}
    (h : acceptLong a = some art) :
    a = some art ∧ ∃ t, art.text = some t ∧ 100 < t.length := by
  cases a with
  | none => exact Option.noConfusion h
  | some x =>
    simp only [acceptLong] at h
    split at h
    · exact Option.noConfusion h
    · rename_i t hx
      split at h
      · rename_i hc
        injection h with h2
        subst h2
        exact ⟨rfl, t, hx, hc.2⟩
      · exact Option.noConfusion h

lemma traf_shape {extract : Str → Option TrafExtraction} {fetchUrl : Option Str}
    {url : Str} {html : Option Str} {art : ScrapedArticle}
    (h : scrape_with_trafilatura extract fetchUrl url html = some art) :
    art.scrape_error = none ∧ art.url = url := by
  unfold scrape_with_trafilatura at h
  repeat' split at h
  all_goals first
    | exact Option.noConfusion h
    | (injection h with h2; subst h2; exact ⟨rfl, rfl⟩)

lemma news_shape {news : Option NewsExtraction} {url : Str} {art : ScrapedArticle}
    (h : scrape_with_newspaper news url = some art) :
    art.scrape_error = none ∧ art.is_paywalled = false ∧ art.url = url := by
  unfold scrape_with_newspaper at h
  repeat' split at h
  all_goals first
    | exact Option.noConfusion h
    | (injection h with h2; subst h2; exact ⟨rfl, rfl, rfl⟩)

/-- The invariant of claim C1: exactly one of `text` and `scrape_error` is
set, text on success, error on failure. -/
def exactlyOneTextOrError (r : ScrapedArticle) : Prop :=
  ((∃ t, r.text = some t) ∧ r.scrape_error = none) ∨
  (r.text = none ∧ ∃ e, r.scrape_error = some e)

lemma scrape_article_exclusive (env : ScrapeEnv) (url : Str) :
    exactlyOneTextOrError (scrape_article env url) := by
  unfold scrape_article scrapeArticleTrace scrapeSteps
  rcases h1 : acceptLong (scrape_with_trafilatura env.extract env.fetchUrl (pyStrip url) env.fetchHtml)
    with _ | art1
  case some =>
    obtain ⟨heq, t, ht, _⟩ := acceptLong_eq_some h1
    simp only [h1]
    exact Or.inl ⟨⟨t, ht⟩, (traf_shape heq).1⟩
  case none =>
  simp only [h1]
  rcases h2 : acceptLong (scrape_with_trafilatura env.extract env.fetchUrl (pyStrip url) none)
    with _ | art2
  case some =>
    obtain ⟨heq, t, ht, _⟩ := acceptLong_eq_some h2
    simp only [h2]
    exact Or.inl ⟨⟨t, ht⟩, (traf_shape heq).1⟩
  case none =>
  simp only [h2]
  rcases h3 : acceptLong (scrape_with_newspaper env.news (pyStrip url)) with _ | art3
  case some =>
    obtain ⟨heq, t, ht, _⟩ := acceptLong_eq_some h3
    simp only [h3]
    exact Or.inl ⟨⟨t, ht⟩, (news_shape heq).1⟩
  case none =>
  simp only [h3]
  split
  · exact Or.inr ⟨rfl, _, rfl⟩
  · exact Or.inr ⟨rfl, _, rfl⟩

/-- Claim C1: every ScrapedArticle returned by scrape_article, and hence
every record in the output of scrape_articles, has exactly one of `text`
and `scrape_error` set: success carries text and no error, both terminal
failure records carry an error and no text. -/
theorem claim_c1_text_error_exclusive :
    (∀ env url, exactlyOneTextOrError (scrape_article env url)) ∧
    (∀ envOf urls r, r ∈ scrape_articles envOf urls → exactlyOneTextOrError r) := by
  refine ⟨scrape_article_exclusive, ?_⟩
  intro envOf urls r hr
  simp only [scrape_articles, List.mem_map] at hr
  obtain ⟨u, _, rfl⟩ := hr
  exact scrape_article_exclusive (envOf u) u

/-- Oracle bundle where every external call fails and no html was fetched. -/
def envAllFailNoHtml : ScrapeEnv :=
  { fetchHtml := none, extract := fun _ => none, fetchUrl := none, news := none }

theorem claim_c1_text_error_exclusive_witness :
    exactlyOneTextOrError (extractFailRecord ['u']) :=
  claim_c1_text_error_exclusive.2 (fun _ => envAllFailNoHtml) [['u']]
    (extractFailRecord ['u']) (by decide)

/-- Claim C10: every ScrapedArticle produced by the newspaper strategy has
`is_paywalled = false`, whatever the extraction outcome — the paywall
heuristic is never applied on that path. -/
theorem claim_c10_newspaper_never_paywalled (news : Option NewsExtraction)
    (url : Str) (art : ScrapedArticle)
    (h : scrape_with_newspaper news url = some art) :
    art.is_paywalled = false :=
  (news_shape h).2.1

/-- A newspaper outcome whose page is short and whose html would match a
paywall marker, showing the flag stays false regardless. -/
def newsSample : NewsExtraction :=
  { title := "t".toList, text := List.replicate 50 'a',
    sourceUrl := "example.com".toList }

theorem claim_c10_newspaper_never_paywalled_witness :
    ({ url := ['u'], headline := some "t".toList,
       text := some (List.replicate 50 'a'),
       source := some "example.com".toList, date := none,
       is_paywalled := false, scrape_error := none } : ScrapedArticle).is_paywalled
      = false :=
  claim_c10_newspaper_never_paywalled (some newsSample) ['u'] _ (by decide)

/- ### Cascade short-circuit (claim C5) -/

/-- Claim C5, amended: if the first cascade strategy (trafilatura over the
pre-fetched HTML) yields a candidate whose body text is strictly longer than
100 characters, scrape_article returns that candidate and invokes no further
strategy. -/
theorem claim_c5_first_strategy_wins (env : ScrapeEnv) (url : Str)
    (art : ScrapedArticle) (t : Str)
    (h1 : scrape_with_trafilatura env.extract env.fetchUrl (pyStrip url) env.fetchHtml
            = some art)
    (h2 : art.text = some t) (h3 : 100 < t.length) :
    scrapeArticleTrace env url = (art, [Strategy.trafCached]) := by
  have hne : t ≠ [] := by
    intro hnil
    rw [hnil] at h3
    simp at h3
  unfold scrapeArticleTrace scrapeSteps
  rw [h1]
  simp [acceptLong, h2, hne, h3]

/-- A fixed one-character html page with no paywall marker. -/
def htmlPlain : Str := "x".toList

/-- Oracle bundle where trafilatura extracts a 150-character body. -/
def envTraf150 : ScrapeEnv :=
  { fetchHtml := some htmlPlain,
    extract := fun _ => some { text := some (List.replicate 150 'a') },
    fetchUrl := none, news := none }

theorem claim_c5_first_strategy_wins_witness :
    scrapeArticleTrace envTraf150 ['u'] =
      ({ url := ['u'], headline := none, text := some (List.replicate 150 'a'),
         source := none, date := none, is_paywalled := false,
         scrape_error := none }, [Strategy.trafCached]) :=
  claim_c5_first_strategy_wins envTraf150 ['u'] _ (List.replicate 150 'a')
    (by decide) rfl (by decide)

/-- Oracle bundle where trafilatura extracts an exactly-100-character body. -/
def envTraf100 : ScrapeEnv :=
  { fetchHtml := some htmlPlain,
    extract := fun _ => some { text := some (List.replicate 100 'a') },
    fetchUrl := none, news := none }

/-- The candidate produced by the first strategy under `envTraf100`. -/
def cand100 : ScrapedArticle :=
  { url := ['u'], headline := none, text := some (List.replicate 100 'a'),
    source := none, date := none, is_paywalled := false, scrape_error := none }

/-- Counterexample to claim C5 as stated ("at least 100 characters"): the
first strategy returns a candidate with a body of exactly 100 characters,
yet scrape_article does not return it and all three strategies run. -/
theorem claim_c5_counterexample :
    scrape_with_trafilatura envTraf100.extract envTraf100.fetchUrl (pyStrip ['u'])
        envTraf100.fetchHtml = some cand100 ∧
    100 ≤ (cand100.text.getD []).length ∧
    scrapeArticleTrace envTraf100 ['u'] ≠ (cand100, [Strategy.trafCached]) ∧
    (scrapeArticleTrace envTraf100 ['u']).2 =
      [Strategy.trafCached, Strategy.trafOwn, Strategy.newspaperFallback] := by
  decide

/- ### Exhausted cascade (claim C8) -/

lemma htmlHasPaywallMarker_iff (html : Option Str) :
    htmlHasPaywallMarker html = true ↔
      ∃ h, html = some h ∧
        ∃ m ∈ PAYWALL_MARKERS, List.IsInfix m (h.map Char.toLower) := by
  cases html with
  | none => simp [htmlHasPaywallMarker]
  | some h =>
    simp only [htmlHasPaywallMarker]
    constructor
    · intro hd
      split at hd
      · exact ⟨h, rfl, (hasMarker_iff h).1 hd⟩
      · exact absurd hd (by simp)
    · rintro ⟨h2, heq, m, hmem, hinf⟩
      injection heq with heq2
      subst heq2
      have hhm := (hasMarker_iff h).2 ⟨m, hmem, hinf⟩
      simp [hasMarker_ne_nil h hhm, hhm]

/-- Claim C8: when every cascade strategy fails or yields sub-threshold
text, scrape_article returns the paywall failure record (error "Article
appears to be behind a paywall.", is_paywalled true) when the lower-cased
raw fetched HTML contains a paywall marker, and the plain extraction
failure record (error "Failed to extract article content from this URL.",
is_paywalled false) otherwise. -/
theorem claim_c8_exhausted_cascade (env : ScrapeEnv) (url : Str)
    (h1 : acceptLong (scrape_with_trafilatura env.extract env.fetchUrl (pyStrip url)
            env.fetchHtml) = none)
    (h2 : acceptLong (scrape_with_trafilatura env.extract env.fetchUrl (pyStrip url)
            none) = none)
    (h3 : acceptLong (scrape_with_newspaper env.news (pyStrip url)) = none) :
    (scrape_article env url =
      if htmlHasPaywallMarker env.fetchHtml then paywallFailRecord (pyStrip url)
      else extractFailRecord (pyStrip url)) ∧
    (htmlHasPaywallMarker env.fetchHtml = true ↔
      ∃ h, env.fetchHtml = some h ∧
        ∃ m ∈ PAYWALL_MARKERS, List.IsInfix m (h.map Char.toLower)) := by
  refine ⟨?_, htmlHasPaywallMarker_iff env.fetchHtml⟩
  unfold scrape_article scrapeArticleTrace scrapeSteps
  rw [h1, h2, h3]

/-- Oracle bundle where every strategy fails and the fetched page mentions
"premium content". -/
def envAllFailPaywalled : ScrapeEnv :=
  { fetchHtml := some "this is premium content page".toList,
    extract := fun _ => none, fetchUrl := none, news := none }

theorem claim_c8_exhausted_cascade_witness :
    scrape_article envAllFailPaywalled ['u'] = paywallFailRecord ['u'] := by
  have h := claim_c8_exhausted_cascade envAllFailPaywalled ['u']
    (by decide) (by decide) (by decide)
  rw [h.1]
  decide

/- ### Successful-but-short extraction with paywall markers (claim C9) -/

/-- Claim C9: when the trafilatura strategy succeeds over the fetched HTML
with a body strictly between 100 and 200 characters and that HTML contains
a paywall marker (lower-cased), scrape_article returns that record with the
body retained and `is_paywalled = true`: it is not escalated to failure. -/
theorem claim_c9_short_success_flagged (env : ScrapeEnv) (url : Str)
    (h : Str) (r : TrafExtraction) (t : Str)
    (hH : env.fetchHtml = some h)
    (hE : env.extract h = some r)
    (hT : r.text = some t)
    (h100 : 100 < t.length) (h200 : t.length < 200)
    (hM : hasMarker h = true) :
    scrape_article env url =
      { url := pyStrip url, headline := r.title, text := some t,
        source := r.sitename, date := r.date, is_paywalled := true,
        scrape_error := none } := by
  have hhne : h ≠ [] := hasMarker_ne_nil h hM
  have htne : t ≠ [] := by
    intro hnil
    rw [hnil] at h100
    simp at h100
  have hdp : detect_paywall (some t) (some h) = true := by
    simp [detect_paywall, htne, h200, hhne, hM]
  have hart : scrape_with_trafilatura env.extract env.fetchUrl (pyStrip url) env.fetchHtml
      = some { url := pyStrip url, headline := r.title, text := some t,
               source := r.sitename, date := r.date,
               is_paywalled := detect_paywall (some t) (some h),
               scrape_error := none } := by
    rw [hH]
    simp only [scrape_with_trafilatura]
    simp [hE, hT, hhne, htne]
  rw [hdp] at hart
  unfold scrape_article scrapeArticleTrace scrapeSteps
  rw [hart]
  simp [acceptLong, htne, h100]

/-- A fixed html page mentioning "premium content". -/
def htmlPay : Str := "see premium content here".toList

/-- Oracle bundle where trafilatura extracts a 150-character body from a
marker-bearing page. -/
def envTraf150Pay : ScrapeEnv :=
  { fetchHtml := some htmlPay,
    extract := fun _ => some { text := some (List.replicate 150 'b') },
    fetchUrl := none, news := none }

theorem claim_c9_short_success_flagged_witness :
    scrape_article envTraf150Pay ['u'] =
      { url := ['u'], headline := none, text := some (List.replicate 150 'b'),
        source := none, date := none, is_paywalled := true,
        scrape_error := none } := by
  have hx := claim_c9_short_success_flagged envTraf150Pay ['u'] htmlPay
    { text := some (List.replicate 150 'b') } (List.replicate 150 'b')
    rfl rfl rfl (by decide) (by decide) (by decide)
  rw [hx]
  decide

/- ### Classifier short-circuit (claim C7) -/

/-- Claim C7, amended: analyze_article applied to a ScrapedArticle whose
scrape_error is set and non-empty, or whose text is empty or absent, makes
no classification-service call and returns an AnalyzedArticle whose
analysis_error equals that scrape_error when it is non-empty, and the
default "No article text available." when scrape_error is absent or empty. -/
theorem claim_c7_short_circuit (svc : SvcOutcome) (article : ScrapedArticle)
    (h : pyTruthy article.scrape_error = true ∨ pyTruthy article.text = false) :
    (analyze_article svc article =
      ({ url := article.url, scraped := article, analysis := none,
         analysis_error :=
           some (pyOr article.scrape_error "No article text available.".toList) }, 0))
    ∧ (∀ e, article.scrape_error = some e → e ≠ [] →
        pyOr article.scrape_error "No article text available.".toList = e)
    ∧ ((article.scrape_error = none ∨ article.scrape_error = some []) →
        pyOr article.scrape_error "No article text available.".toList =
          "No article text available.".toList) := by
  refine ⟨?_, ?_, ?_⟩
  · rcases h with h | h <;> simp [analyze_article, h]
  · intro e he hne
    simp [pyOr, he, hne]
  · rintro (he | he) <;> simp [pyOr, he]

/-- A record whose scrape failed with a non-empty error. -/
def artFailed : ScrapedArticle := { url := ['u'], scrape_error := some "boom".toList }

theorem claim_c7_short_circuit_witness :
    analyze_article (SvcOutcome.raised ['e']) artFailed =
      ({ url := ['u'], scraped := artFailed, analysis := none,
         analysis_error := some "boom".toList }, 0) := by
  have h := (claim_c7_short_circuit (SvcOutcome.raised ['e']) artFailed
    (Or.inl (by decide))).1
  rw [h]
  decide

/-- A record carrying a set-but-empty scrape_error and a non-empty body. -/
def artEmptyErr : ScrapedArticle :=
  { url := ['u'], text := some (List.replicate 10 'a'), scrape_error := some [] }

/-- Counterexample to claim C7 as stated: on a record whose scrape_error is
set (to the empty string), analyze_article does call the classification
service (call count 1) and its analysis_error is not that scrape_error. -/
theorem claim_c7_counterexample :
    artEmptyErr.scrape_error ≠ none ∧
    (analyze_article (SvcOutcome.raised "boom".toList) artEmptyErr).2 = 1 ∧
    (analyze_article (SvcOutcome.raised "boom".toList) artEmptyErr).1.analysis_error
      ≠ artEmptyErr.scrape_error := by
  decide

/- ### Classifier result invariant (claim C2) -/

/-- The invariant of claim C2: exactly one of `analysis` and
`analysis_error` is set. -/
def exactlyOneAnalysisOrError (r : AnalyzedArticle) : Prop :=
  ((∃ a, r.analysis = some a) ∧ r.analysis_error = none) ∨
  (r.analysis = none ∧ ∃ e, r.analysis_error = some e)

/-- Claim C2, amended: every AnalyzedArticle returned by analyze_article has
exactly one of `analysis` and `analysis_error` set, provided the
classification call, when it succeeds, carries a parsed analysis; when the
service responds without raising but with no parsed content, the code
stores `analysis = None` and no error, so neither field is set. -/
theorem claim_c2_analysis_exclusive (svc : SvcOutcome) (article : ScrapedArticle)
    (h : svc ≠ SvcOutcome.success none) :
    exactlyOneAnalysisOrError (analyze_article svc article).1 := by
  unfold analyze_article
  split
  · exact Or.inr ⟨rfl, _, rfl⟩
  · cases svc with
    | raised msg => exact Or.inr ⟨rfl, _, rfl⟩
    | success parsed =>
      cases parsed with
      | none => exact absurd rfl h
      | some a => exact Or.inl ⟨⟨a, rfl⟩, rfl⟩

/-- A successfully scraped record with a non-empty body. -/
def artOk : ScrapedArticle := { url := ['u'], text := some (List.replicate 10 'a') }

theorem claim_c2_analysis_exclusive_witness :
    exactlyOneAnalysisOrError
      (analyze_article (SvcOutcome.raised "boom".toList) artOk).1 :=
  claim_c2_analysis_exclusive (SvcOutcome.raised "boom".toList) artOk (by decide)

/-- Counterexample to claim C2 as stated: a successful service response
with no parsed content (the SDK's refusal case) yields an AnalyzedArticle
with neither `analysis` nor `analysis_error` set, though the service was
called. -/
theorem claim_c2_counterexample :
    (analyze_article (SvcOutcome.success none) artOk).1.analysis = none ∧
    (analyze_article (SvcOutcome.success none) artOk).1.analysis_error = none ∧
    (analyze_article (SvcOutcome.success none) artOk).2 = 1 := by
  decide

/- ### Aggregation of competitor articles (claims C3 and C4) -/

/-- Claim C3, amended: in aggregation, a classified article with category
"competitor" is appended to the bucket keyed by its competitor_name
whenever that name is set and non-empty — even when the name matches no
configured competitor — and to the default bucket "Other" exactly when
competitor_name is absent or empty. -/
theorem claim_c3_competitor_bucket (st : AggState) (art : AnalyzedArticle)
    (an : ArticleAnalysis)
    (hA : art.analysis = some an)
    (hE : pyTruthy art.analysis_error = false)
    (hC : an.category = "competitor".toList) :
    (classifyStep st art =
      { st with
        competitor_articles :=
          updateBucket st.competitor_articles
            (pyOr an.competitor_name "Other".toList) art })
    ∧ ((an.competitor_name = none ∨ an.competitor_name = some []) →
        pyOr an.competitor_name "Other".toList = "Other".toList)
    ∧ (∀ n, an.competitor_name = some n → n ≠ [] →
        pyOr an.competitor_name "Other".toList = n) := by
  have hneq : "competitor".toList ≠ "client".toList := by decide
  refine ⟨?_, ?_, ?_⟩
  · unfold classifyStep
    rw [hA]
    simp [hE, hC, hneq]
  · rintro (hn | hn) <;> simp [pyOr, hn]
  · intro n hn hne
    simp [pyOr, hn, hne]

/-- A classification naming the unconfigured competitor "C". -/
def anC : ArticleAnalysis :=
  { category := "competitor".toList, sentiment := "Neutral".toList,
    summary := ['s'], headline := ['h'], source := "src".toList,
    date := "2026-01-01".toList, competitor_name := some ['C'] }

/-- A classified article naming competitor "C". -/
def artCompC : AnalyzedArticle :=
  { url := ['u'], scraped := { url := ['u'], text := some "long text".toList },
    analysis := some anC }

theorem claim_c3_competitor_bucket_witness :
    classifyStep {} artCompC =
      { client_articles := [], competitor_articles := [(['C'], [artCompC])],
        industry_articles := [], failed_articles := [] } := by
  have h := (claim_c3_competitor_bucket ({} : AggState) artCompC anC rfl (by decide) rfl).1
  rw [h]
  decide

/-- The configured profile of the aggregation examples: competitors
["A", "B"]. -/
def exampleConfig : ClientConfig :=
  { client_name := "Client".toList, keywords := [],
    competitors := [['A'], ['B']], markets := [], industry_keywords := [] }

/-- Counterexample to claim C3 as stated: with configured competitors
["A","B"], the article naming the unconfigured competitor "C" is appended
to a bucket keyed "C", and the "Other" bucket neither exists nor contains
it. -/
theorem claim_c3_counterexample :
    ['C'] ∉ exampleConfig.competitors ∧
    (classifyArticles [artCompC]).competitor_articles = [(['C'], [artCompC])] ∧
    lookupBucket (classifyArticles [artCompC]).competitor_articles "Other".toList
      = [] := by
  decide

lemma map_fst_filterNotConfigured (c : List Str)
    (buckets : List (Str × List AnalyzedArticle)) :
    (buckets.filter (fun kv => decide (kv.1 ∉ c))).map Prod.fst =
      (buckets.map Prod.fst).filter (fun k => decide (k ∉ c)) := by
  induction buckets with
  | nil => rfl
  | cons kv rest ih =>
    simp only [decide_not] at ih ⊢
    simp only [List.filter_cons, List.map_cons]
    by_cases hk : kv.1 ∈ c
    · simp [hk, ih]
    · simp [hk, ih]

/-- A classification naming the unconfigured competitor "D". -/
def anD : ArticleAnalysis := { anC with competitor_name := some ['D'] }

/-- Classified articles naming competitor "D" (two distinct urls). -/
def artD : AnalyzedArticle :=
  { url := "u2".toList, scraped := { url := "u2".toList, text := some ['x'] },
    analysis := some anD }

def artD2 : AnalyzedArticle :=
  { url := "u3".toList, scraped := { url := "u3".toList, text := some ['y'] },
    analysis := some anD }

/-- Claim C4: with competitors ["A","B"] configured and classified
competitor articles naming only "C", the emitted competitor buckets are
[("A",[]), ("B",[]), ("C",[article])]; in general the emitted key order is
the configured names in configuration order followed by the unconfigured
bucket keys in bucket (first-seen) order, as the second concrete run
(articles naming D, C, D) illustrates with keys ["A","B","D","C"]. -/
theorem claim_c4_bucket_order :
    (competitorSections exampleConfig (classifyArticles [artCompC]).competitor_articles
      = [(['A'], []), (['B'], []), (['C'], [artCompC])]) ∧
    (∀ config buckets,
      (competitorSections config buckets).map Prod.fst =
        config.competitors ++
          (buckets.map Prod.fst).filter (fun k => decide (k ∉ config.competitors))) ∧
    ((competitorSections exampleConfig
        (classifyArticles [artD, artCompC, artD2]).competitor_articles).map Prod.fst
      = [['A'], ['B'], ['D'], ['C']]) := by
  refine ⟨by decide, ?_, by decide⟩
  intro config buckets
  unfold competitorSections
  rw [List.map_append, List.map_map, map_fst_filterNotConfigured]
  congr 1
  rw [show (Prod.fst ∘ fun n => (n, lookupBucket buckets n)) = @id Str from rfl,
    List.map_id]

end MediaMonitor
